import Mathlib

/-!
Verification of `custom_components/nswairquality/sensor.py`.

The module's core is `BOMForecastData`: a throttled fetch of a BOM XML
forecast product plus field-extraction queries (`get_reading`,
`get_start_time_local`) against the cached document, and the pure helper
`closest_product_id` selecting the nearest product from a static table.

The XML document is embedded at the granularity the source's find queries
operate on: forecast periods keyed by their index attribute, each holding
child elements keyed by their type tag, plus the City-layout lookup points
used by the `_FIND_QUERY_2/3/4` queries. Python exceptions raised by the
extraction code (`.text` on `None`, `len(None)`, dict `KeyError`) are made
explicit in an `Except` result; a Python return value that may be `None`
is an `Option String`.
-/

namespace NswAirQuality

/-- Python exceptions that the extraction code can raise:
`AttributeError` from `.text` / `.strip()` / `.get` on `None`,
`TypeError` from `len(None)` or joining a `None` item,
`KeyError` from a failed dict subscript. -/
inductive PyError where
  | attributeError
  | typeError
  | keyError
deriving DecidableEq, Repr

/-- An XML element as the extraction code sees it: its `.text` (which
ElementTree reports as `None` for an empty element) and the texts of the
`./p` children that `findall("./p")` returns (used only by the City
fire-danger branch). -/
structure Elem where
  text : Option String
  pChildren : List (Option String)
deriving DecidableEq, Repr

/-- A `forecast-period` element: its `start-time-local` attribute (absent
attributes read as `None` via `.get`) and its child elements keyed by
their `type` attribute; `find` returns the first match, as `List.lookup`
does. -/
structure Period where
  startTimeLocal : Option String
  fields : List (String × Elem)
deriving DecidableEq, Repr

/-- The parsed forecast document. `periods` are the `forecast-period`
elements keyed by their `index` attribute. `cityText`, `cityUvAlert` and
`cityFireDanger` are the elements located by the City-layout queries
`_FIND_QUERY_2`, `_FIND_QUERY_3` and `_FIND_QUERY_4` for a given index.
Modelled from the spec: the `_FIND_QUERY*` strings themselves are not in
`src/`; the spec describes them as locating the forecast period matching
the day-index and then the child element matching the field's source tag,
with a different nesting for "City" documents. -/
structure Document where
  periods : List (Nat × Period)
  cityText : List (Nat × Elem)
  cityUvAlert : List (Nat × Elem)
  cityFireDanger : List (Nat × Elem)
  issueTime : Option Elem
deriving DecidableEq, Repr

/-- One row of `PRODUCT_ID_LAT_LON_LOCATION`. Modelled from the spec: the
table itself is not in `src/`; the source indexes rows by `[0]` latitude,
`[1]` longitude, `[2]` location name, `[3]` location-kind tag. Coordinates
are embedded as rationals. -/
structure ProductEntry where
  lat : ℚ
  lon : ℚ
  location : String
  kind : String
deriving DecidableEq, Repr

/-- `SENSOR_TYPES[condition][0]`: the source tag for each condition
(`sensor.py` lines 42-54); `none` models the `KeyError` for an unknown
condition. -/
def sensorTag : String → Option String
  | "max" => some "air_temperature_maximum"
  | "min" => some "air_temperature_minimum"
  | "chance_of_rain" => some "probability_of_precipitation"
  | "possible_rainfall" => some "precipitation_range"
  | "summary" => some "precis"
  | "detailed_summary" => some "forecast"
  | "uv_alert" => some "uv_alert"
  | "fire_danger" => some "fire_danger"
  | "icon" => some "forecast_icon_code"
  | _ => none

/-- `self._data.find(_FIND_QUERY.format(index, tag))`: the child element
with the given type tag of the forecast period with the given index, or
`none` when either is absent. Modelled from the spec (the query string is
not in `src/`). -/
def findField (doc : Document) (index : Nat) (tag : String) : Option Elem :=
  (doc.periods.lookup index).bind fun p => p.fields.lookup tag

/-- Python's `str.strip()`: drop whitespace from both ends. -/
def pyStrip (s : String) : String :=
  String.mk
    (((s.data.dropWhile Char.isWhitespace).reverse.dropWhile
      Char.isWhitespace).reverse)

/-- The tail of `get_reading` (`sensor.py` lines 308-318): the generic
`_FIND_QUERY` lookup, the `icon` translation through `ICON_MAPPING`
(passed in as `icons`; the table is not in `src/`), the `n/a` / `0 mm`
absence sentinels, and the 251-character truncation. -/
def genericRead (icons : List (String × String)) (doc : Document)
    (condition : String) (index : Nat) : Except PyError (Option String) :=
  match sensorTag condition with
  | none => .error .keyError
  | some tag =>
    match findField doc index tag with
    | none =>
      if condition = "icon" then .error .attributeError
      else if condition = "possible_rainfall" then .ok (some "0 mm")
      else .ok (some "n/a")
    | some state =>
      if condition = "icon" then
        match state.text with
        | none => .error .keyError
        | some code =>
          match icons.lookup code with
          | none => .error .keyError
          | some name => .ok (some name)
      else
        match state.text with
        | none => .error .typeError
        | some s =>
          .ok (some (if s.length > 251 then s.take 251 ++ "..." else s))

/-- `BOMForecastData.get_reading` (`sensor.py` lines 251-318), following
the source's branch order: `detailed_summary`, `uv_alert`, `fire_danger`
(each split on the product's location-kind `[3] == 'City'`, falling
through to the generic tail when they do not return), then the generic
tail. `table` is `PRODUCT_ID_LAT_LON_LOCATION`, `icons` is
`ICON_MAPPING`. -/
def get_reading (table : List (String × ProductEntry))
    (icons : List (String × String)) (product_id : String) (doc : Document)
    (condition : String) (index : Nat) : Except PyError (Option String) :=
  if condition = "detailed_summary" then
    match table.lookup product_id with
    | none => .error .keyError
    | some entry =>
      match (if entry.kind = "City" then doc.cityText.lookup index
             else findField doc index "forecast") with
      | none => .error .attributeError
      | some e =>
        match e.text with
        | none => .error .typeError
        | some s =>
          .ok (some (if s.length > 251 then s.take 251 ++ "..." else s))
  else if condition = "uv_alert" then
    match table.lookup product_id with
    | none => .error .keyError
    | some entry =>
      if entry.kind = "City" then
        match doc.cityUvAlert.lookup index with
        | some e => .ok e.text
        | none => genericRead icons doc condition index
      else
        match findField doc index "uv_alert" with
        | none => .error .attributeError
        | some e =>
          match e.text with
          | some t => .ok (some t)
          | none => genericRead icons doc condition index
  else if condition = "fire_danger" then
    match table.lookup product_id with
    | none => .error .keyError
    | some entry =>
      if entry.kind = "City" then
        match doc.cityFireDanger.lookup index with
        | some e =>
          match e.text with
          | none => .error .attributeError
          | some t =>
            if pyStrip t = "" then
              if e.pChildren.all Option.isSome then
                .ok (some (String.intercalate ", " (e.pChildren.filterMap id)))
              else .error .typeError
            else .ok (some (pyStrip t))
        | none => genericRead icons doc condition index
      else
        match findField doc index "fire_danger" with
        | none => .error .attributeError
        | some e =>
          match e.text with
          | some t => .ok (some t)
          | none => genericRead icons doc condition index
  else genericRead icons doc condition index

/-- `BOMForecastData.get_start_time_local` (`sensor.py` lines 328-332):
`find` for the forecast period at the index, then `.get("start-time-local")`.
A missing period makes `find` return `None` and `.get` raise
`AttributeError`; a present period yields its attribute (possibly
`None`). -/
def get_start_time_local (doc : Document) (index : Nat) :
    Except PyError (Option String) :=
  match doc.periods.lookup index with
  | none => .error .attributeError
  | some p => .ok p.startTimeLocal

/-- `BOMForecastData.get_issue_time_local` (`sensor.py` lines 320-326). -/
def get_issue_time_local (doc : Document) : Option String :=
  match doc.issueTime with
  | none => some "n/a"
  | some e => e.text

/-- The squared pseudo-distance of `comparable_dist`
(`sensor.py` lines 351-355). -/
def sqDist (lat lon : ℚ) (e : ProductEntry) : ℚ :=
  (lat - e.lat) ^ 2 + (lon - e.lon) ^ 2

/-- `closest_product_id` (`sensor.py` lines 348-357):
`min(PRODUCT_ID_LAT_LON_LOCATION, key=comparable_dist)`. Python's `min`
scans the keys in iteration order keeping the current best and replacing
it only on a strictly smaller key value, so the first minimum wins; on an
empty table `min` raises, embedded as `none`. -/
def closest_product_id (table : List (String × ProductEntry))
    (lat lon : ℚ) : Option String :=
  match table with
  | [] => none
  | e :: rest =>
    some ((rest.foldl (fun best x =>
      if sqDist lat lon x.2 < sqDist lat lon best.2 then x else best) e).1)

/-- `MIN_TIME_BETWEEN_UPDATES = timedelta(minutes=5)`
(`sensor.py` line 40), in minutes. -/
def MIN_TIME_BETWEEN_UPDATES : ℚ := 5

/-- The outcome of one remote fetch-and-parse attempt, supplied by the
environment: the downloaded document, a network/transfer failure, or an
XML parse failure. -/
inductive FetchResult where
  | success (doc : Document)
  | fetchFailed
  | parseFailed
deriving DecidableEq, Repr

/-- `BOMForecastData` state: `self._data` (unset until the first
successful `update`) and the throttle's record of the last attempt time. -/
structure CacheState where
  data : Option Document
  lastUpdate : Option ℚ
deriving DecidableEq, Repr

/-- What one `update()` call did, as seen by the caller. -/
inductive UpdateOutcome where
  | throttled
  | updated
  | raisedFetchFailed
  | raisedParseFailed
deriving DecidableEq, Repr

/-- `BOMForecastData.update` (`sensor.py` lines 334-345) under
`@Throttle(MIN_TIME_BETWEEN_UPDATES)`. Modelled from the spec: the
`Throttle` decorator is external library code; the spec says a call within
the minimum interval of the previous attempt is a no-op, that an attempt
consumes the throttle window whether or not it succeeds, and that no two
network transfers happen closer together than the interval. The body has
no exception handler, so a fetch or parse failure propagates to the
caller; `self._data` is assigned only by the body's last statement, after
every fallible step. -/
def update (st : CacheState) (now : ℚ) (fetch : FetchResult) :
    CacheState × UpdateOutcome :=
  match st.lastUpdate with
  | some t =>
    if now - t < MIN_TIME_BETWEEN_UPDATES then (st, .throttled)
    else
      match fetch with
      | .success doc => (⟨some doc, some now⟩, .updated)
      | .fetchFailed => (⟨st.data, some now⟩, .raisedFetchFailed)
      | .parseFailed => (⟨st.data, some now⟩, .raisedParseFailed)
  | none =>
    match fetch with
    | .success doc => (⟨some doc, some now⟩, .updated)
    | .fetchFailed => (⟨st.data, some now⟩, .raisedFetchFailed)
    | .parseFailed => (⟨st.data, some now⟩, .raisedParseFailed)

/-- The times at which a sequence of `update()` calls (each a call time
paired with what the network would return) actually performs a network
transfer. -/
def transferTimes (st : CacheState) : List (ℚ × FetchResult) → List ℚ
  | [] => []
  | (now, f) :: rest =>
    match update st now f with
    | (st2, oc) =>
      if oc = .throttled then transferTimes st2 rest
      else now :: transferTimes st2 rest

lemma MIN_TIME_BETWEEN_UPDATES_pos : (0 : ℚ) < MIN_TIME_BETWEEN_UPDATES := by
  norm_num [MIN_TIME_BETWEEN_UPDATES]

/-- Invariant of a run of `update` calls: with call times nondecreasing and
no earlier than the recorded last attempt, the actual transfer times are
spaced at least the minimum interval apart, and all lie at least the
interval after the recorded last attempt. -/
lemma transferTimes_aux :
    ∀ (calls : List (ℚ × FetchResult)) (st : CacheState),
      (calls.map Prod.fst).Pairwise (· ≤ ·) →
      (∀ c ∈ calls, ∀ t, st.lastUpdate = some t → t ≤ c.1) →
      List.Chain' (fun a b => a + MIN_TIME_BETWEEN_UPDATES ≤ b)
        (transferTimes st calls) ∧
      (∀ u ∈ transferTimes st calls, ∀ t, st.lastUpdate = some t →
        t + MIN_TIME_BETWEEN_UPDATES ≤ u) := by
  intro calls
  induction calls with
  | nil => intro st _ _; simp [transferTimes]
  | cons c rest ih =>
    intro st hmono hafter
    obtain ⟨now, f⟩ := c
    rw [List.map_cons, List.pairwise_cons] at hmono
    obtain ⟨hnow_le, hmono'⟩ := hmono
    rcases hlu : st.lastUpdate with _ | t0
    case none =>
      obtain ⟨st2, oc, hupd, hoc, hl2⟩ :
          ∃ st2 oc, update st now f = (st2, oc) ∧ oc ≠ .throttled ∧
            st2.lastUpdate = some now := by
        cases f with
        | success doc =>
          exact ⟨⟨some doc, some now⟩, .updated,
            by simp [update, hlu], by simp, rfl⟩
        | fetchFailed =>
          exact ⟨⟨st.data, some now⟩, .raisedFetchFailed,
            by simp [update, hlu], by simp, rfl⟩
        | parseFailed =>
          exact ⟨⟨st.data, some now⟩, .raisedParseFailed,
            by simp [update, hlu], by simp, rfl⟩
      have htr : transferTimes st ((now, f) :: rest) =
          now :: transferTimes st2 rest := by
        simp [transferTimes, hupd, hoc]
      obtain ⟨ihc, ihb⟩ := ih st2 hmono' (by
        intro c hc t ht
        rw [hl2] at ht
        cases Option.some.inj ht
        exact hnow_le c.1 (List.mem_map_of_mem Prod.fst hc))
      rw [htr]
      constructor
      · rw [List.chain'_cons']
        refine ⟨?_, ihc⟩
        intro b hb
        exact ihb b (List.mem_of_mem_head? hb) now hl2
      · intro u hu t ht
        exact Option.noConfusion ht
    case some =>
      by_cases hthr : now - t0 < MIN_TIME_BETWEEN_UPDATES
      · have hupd : update st now f = (st, .throttled) := by
          simp [update, hlu, hthr]
        have htr : transferTimes st ((now, f) :: rest) = transferTimes st rest := by
          simp [transferTimes, hupd]
        rw [htr]
        obtain ⟨ihc, ihb⟩ := ih st hmono' fun c hc t ht =>
          hafter c (List.mem_cons_of_mem _ hc) t ht
        exact ⟨ihc, fun u hu t ht => ihb u hu t (hlu.trans ht)⟩
      · have ht0now : t0 + MIN_TIME_BETWEEN_UPDATES ≤ now := by
          have := not_lt.mp hthr
          linarith
        obtain ⟨st2, oc, hupd, hoc, hl2⟩ :
            ∃ st2 oc, update st now f = (st2, oc) ∧ oc ≠ .throttled ∧
              st2.lastUpdate = some now := by
          cases f with
          | success doc =>
            exact ⟨⟨some doc, some now⟩, .updated,
              by simp [update, hlu, hthr], by simp, rfl⟩
          | fetchFailed =>
            exact ⟨⟨st.data, some now⟩, .raisedFetchFailed,
              by simp [update, hlu, hthr], by simp, rfl⟩
          | parseFailed =>
            exact ⟨⟨st.data, some now⟩, .raisedParseFailed,
              by simp [update, hlu, hthr], by simp, rfl⟩
        have htr : transferTimes st ((now, f) :: rest) =
            now :: transferTimes st2 rest := by
          simp [transferTimes, hupd, hoc]
        obtain ⟨ihc, ihb⟩ := ih st2 hmono' (by
          intro c hc t ht
          rw [hl2] at ht
          cases Option.some.inj ht
          exact hnow_le c.1 (List.mem_map_of_mem Prod.fst hc))
        rw [htr]
        constructor
        · rw [List.chain'_cons']
          refine ⟨?_, ihc⟩
          intro b hb
          exact ihb b (List.mem_of_mem_head? hb) now hl2
        · intro u hu t ht
          cases Option.some.inj ht
          rcases List.mem_cons.mp hu with rfl | hu
          · exact ht0now
          · have := ihb u hu now hl2
            have hpos := MIN_TIME_BETWEEN_UPDATES_pos
            linarith

/-- C4: for any nondecreasing sequence of `update()` call times on one
fresh cache instance, consecutive actual network transfers are at least
`MIN_TIME_BETWEEN_UPDATES` apart; and two calls within one throttle window
perform exactly one network transfer. -/
theorem update_throttle_spacing (calls : List (ℚ × FetchResult))
    (d0 : Option Document)
    (hmono : (calls.map Prod.fst).Pairwise (· ≤ ·))
    (t1 t2 : ℚ) (f1 f2 : FetchResult) (h12 : t1 ≤ t2)
    (hwin : t2 < t1 + MIN_TIME_BETWEEN_UPDATES) :
    List.Chain' (fun a b => a + MIN_TIME_BETWEEN_UPDATES ≤ b)
      (transferTimes ⟨d0, none⟩ calls) ∧
    (transferTimes ⟨d0, none⟩ [(t1, f1), (t2, f2)]).length = 1 := by
  constructor
  · exact (transferTimes_aux calls ⟨d0, none⟩ hmono
      (fun c hc t ht => Option.noConfusion ht)).1
  · have h21 : t2 - t1 < MIN_TIME_BETWEEN_UPDATES := by linarith
    cases f1 <;> simp [transferTimes, update, h21]

/-- Witness for C4: two calls at times 0 and 3 minutes (inside the
5-minute window) on a fresh cache. -/
theorem update_throttle_spacing_witness :
    List.Chain' (fun a b => a + MIN_TIME_BETWEEN_UPDATES ≤ b)
      (transferTimes ⟨none, none⟩
        [((0 : ℚ), FetchResult.fetchFailed),
          ((3 : ℚ), FetchResult.success ⟨[], [], [], [], none⟩)]) ∧
    (transferTimes ⟨none, none⟩
      [((0 : ℚ), FetchResult.fetchFailed),
        ((3 : ℚ), FetchResult.success ⟨[], [], [], [], none⟩)]).length = 1 :=
  update_throttle_spacing
    [((0 : ℚ), FetchResult.fetchFailed),
      ((3 : ℚ), FetchResult.success ⟨[], [], [], [], none⟩)]
    none
    (by norm_num [List.pairwise_cons])
    0 3 FetchResult.fetchFailed (FetchResult.success ⟨[], [], [], [], none⟩)
    (by norm_num) (by norm_num [MIN_TIME_BETWEEN_UPDATES])

/-- The accumulator loop of Python's `min(iterable, key=d)`: scan from the
left, replacing the current best only on a strictly smaller key. -/
def pyMinFold {α : Type} (d : α → ℚ) (t : List α) (a : α) : α :=
  t.foldl (fun b x => if d x < d b then x else b) a

lemma pyMinFold_spec {α : Type} (d : α → ℚ) :
    ∀ (t : List α) (a : α),
      d (pyMinFold d t a) ≤ d a ∧
      (∀ x ∈ t, d (pyMinFold d t a) ≤ d x) ∧
      (pyMinFold d t a = a ∨
        ∃ pre post, t = pre ++ pyMinFold d t a :: post ∧
          d (pyMinFold d t a) < d a ∧
          ∀ x ∈ pre, d (pyMinFold d t a) < d x) := by
  intro t
  induction t with
  | nil => intro a; simp [pyMinFold]
  | cons x t ih =>
    intro a
    by_cases hx : d x < d a
    · have hstep : pyMinFold d (x :: t) a = pyMinFold d t x := by
        simp [pyMinFold, List.foldl, hx]
      obtain ⟨h1, h2, h3⟩ := ih x
      rw [hstep]
      refine ⟨le_of_lt (lt_of_le_of_lt h1 hx), ?_, ?_⟩
      · intro y hy
        rcases List.mem_cons.mp hy with rfl | hy
        · exact h1
        · exact h2 y hy
      · right
        rcases h3 with heq | ⟨pre, post, ht, hlt, hpre⟩
        · refine ⟨[], t, ?_, ?_, by simp⟩
          · rw [heq]; rfl
          · rw [heq]; exact hx
        · refine ⟨x :: pre, post, by rw [List.cons_append, ← ht], lt_trans hlt hx, ?_⟩
          intro y hy
          rcases List.mem_cons.mp hy with rfl | hy
          · exact hlt
          · exact hpre y hy
    · have hstep : pyMinFold d (x :: t) a = pyMinFold d t a := by
        simp [pyMinFold, List.foldl, hx]
      obtain ⟨h1, h2, h3⟩ := ih a
      rw [hstep]
      refine ⟨h1, ?_, ?_⟩
      · intro y hy
        rcases List.mem_cons.mp hy with rfl | hy
        · exact le_trans h1 (le_of_not_lt hx)
        · exact h2 y hy
      · rcases h3 with heq | ⟨pre, post, ht, hlt, hpre⟩
        · exact Or.inl heq
        · refine Or.inr ⟨x :: pre, post, by rw [List.cons_append, ← ht], hlt, ?_⟩
          intro y hy
          rcases List.mem_cons.mp hy with rfl | hy
          · exact lt_of_lt_of_le hlt (le_of_not_lt hx)
          · exact hpre y hy

/-- C3: for every latitude/longitude pair and every non-empty product
table, `closest_product_id` returns the product identifier whose entry
minimizes the squared distance, and on ties the first entry in table
iteration order wins: the returned entry's distance is `≤` every entry's
distance and `<` the distance of every entry strictly before it. -/
theorem closest_product_id_min (table : List (String × ProductEntry))
    (lat lon : ℚ) (h : table ≠ []) :
    ∃ pre p post, table = pre ++ p :: post ∧
      closest_product_id table lat lon = some p.1 ∧
      (∀ x ∈ table, sqDist lat lon p.2 ≤ sqDist lat lon x.2) ∧
      (∀ x ∈ pre, sqDist lat lon p.2 < sqDist lat lon x.2) := by
  match table with
  | [] => exact absurd rfl h
  | e :: rest =>
    obtain ⟨h1, h2, h3⟩ :=
      pyMinFold_spec (fun x : String × ProductEntry => sqDist lat lon x.2) rest e
    have hc : closest_product_id (e :: rest) lat lon =
        some (pyMinFold (fun x : String × ProductEntry => sqDist lat lon x.2) rest e).1 := rfl
    rcases h3 with heq | ⟨pre, post, ht, hlt, hpre⟩
    · refine ⟨[], e, rest, rfl, ?_, ?_, by simp⟩
      · rw [hc, heq]
      · intro x hx
        rcases List.mem_cons.mp hx with rfl | hx
        · exact le_refl _
        · have := h2 x hx
          rw [heq] at this
          exact this
    · refine ⟨e :: pre, _, post, by rw [List.cons_append, ← ht], hc, ?_, ?_⟩
      · intro x hx
        rcases List.mem_cons.mp hx with rfl | hx
        · exact h1
        · exact h2 x hx
      · intro x hx
        rcases List.mem_cons.mp hx with rfl | hx
        · exact hlt
        · exact hpre x hx

/-- Witness for C3 at a concrete table containing a tie: two entries at
the same coordinates; the first one wins. -/
theorem closest_product_id_min_witness :
    ([("IDN10064", (⟨1, 2, "Sydney", "City"⟩ : ProductEntry)),
      ("IDN10001", ⟨1, 2, "Tie", "Area"⟩)] ≠
        ([] : List (String × ProductEntry))) ∧
    ∃ pre p post,
      [("IDN10064", (⟨1, 2, "Sydney", "City"⟩ : ProductEntry)),
        ("IDN10001", ⟨1, 2, "Tie", "Area"⟩)] = pre ++ p :: post ∧
      closest_product_id
        [("IDN10064", ⟨1, 2, "Sydney", "City"⟩),
          ("IDN10001", ⟨1, 2, "Tie", "Area"⟩)] 1 2 = some p.1 ∧
      (∀ x ∈ [("IDN10064", (⟨1, 2, "Sydney", "City"⟩ : ProductEntry)),
          ("IDN10001", ⟨1, 2, "Tie", "Area"⟩)],
        sqDist 1 2 p.2 ≤ sqDist 1 2 x.2) ∧
      (∀ x ∈ pre, sqDist 1 2 p.2 < sqDist 1 2 x.2) :=
  ⟨List.cons_ne_nil _ _,
    closest_product_id_min
      [("IDN10064", ⟨1, 2, "Sydney", "City"⟩),
        ("IDN10001", ⟨1, 2, "Tie", "Area"⟩)] 1 2 (List.cons_ne_nil _ _)⟩

/-- C10: over a non-empty product table, `closest_product_id` always
returns `some` key of the table, never `none`; hence the `None` branch in
`setup_platform` is unreachable for the static non-empty table. -/
theorem closest_product_id_never_none (table : List (String × ProductEntry))
    (lat lon : ℚ) (h : table ≠ []) :
    ∃ pid, closest_product_id table lat lon = some pid ∧
      pid ∈ table.map Prod.fst := by
  match table with
  | [] => exact absurd rfl h
  | e :: rest =>
    obtain ⟨h1, h2, h3⟩ :=
      pyMinFold_spec (fun x : String × ProductEntry => sqDist lat lon x.2) rest e
    refine ⟨(pyMinFold (fun x : String × ProductEntry => sqDist lat lon x.2) rest e).1,
      rfl, ?_⟩
    rcases h3 with heq | ⟨pre, post, ht, hlt, hpre⟩
    · rw [heq]; exact List.mem_map_of_mem Prod.fst (List.mem_cons_self e rest)
    · refine List.mem_map_of_mem Prod.fst (List.mem_cons_of_mem e ?_)
      have hmem : pyMinFold (fun x : String × ProductEntry => sqDist lat lon x.2) rest e ∈
          pre ++ pyMinFold (fun x : String × ProductEntry => sqDist lat lon x.2) rest e :: post :=
        List.mem_append_right pre (List.mem_cons_self _ _)
      rw [← ht] at hmem
      exact hmem

/-- Witness for C10 at a concrete one-entry table. -/
theorem closest_product_id_never_none_witness :
    ([("IDN10064", (⟨1, 2, "Sydney", "City"⟩ : ProductEntry))] ≠
        ([] : List (String × ProductEntry))) ∧
    ∃ pid, closest_product_id
        [("IDN10064", ⟨1, 2, "Sydney", "City"⟩)] 5 7 = some pid ∧
      pid ∈ [("IDN10064", (⟨1, 2, "Sydney", "City"⟩ : ProductEntry))].map Prod.fst :=
  ⟨List.cons_ne_nil _ _,
    closest_product_id_never_none
      [("IDN10064", ⟨1, 2, "Sydney", "City"⟩)] 5 7 (List.cons_ne_nil _ _)⟩

/-- C2 counterexample: with a document already cached and the throttle
window elapsed, a failing fetch is not caught at the cache boundary: the
error reaches the caller even though a document exists. -/
theorem update_catch_cex :
    ((⟨some ⟨[], [], [], [], none⟩, some 0⟩ : CacheState).data ≠ none) ∧
    (update ⟨some ⟨[], [], [], [], none⟩, some 0⟩ 10 .fetchFailed).2 =
      .raisedFetchFailed ∧
    (update ⟨some ⟨[], [], [], [], none⟩, some 0⟩ 10 .parseFailed).2 =
      .raisedParseFailed := by
  refine ⟨by simp, ?_, ?_⟩ <;> norm_num [update, MIN_TIME_BETWEEN_UPDATES]

/-- C2 amended: `update()` has no exception handler, so a `FetchFailed` or
`ParseFailed` error in a non-throttled call always propagates to the
caller, whether or not a document already exists; only the cached document
is preserved. -/
theorem update_error_propagates (st st2 : CacheState) (now now2 t0 : ℚ)
    (hlu : st.lastUpdate = some t0)
    (hwin : MIN_TIME_BETWEEN_UPDATES ≤ now - t0)
    (hlu2 : st2.lastUpdate = none) :
    (update st now .fetchFailed).2 = .raisedFetchFailed ∧
    (update st now .parseFailed).2 = .raisedParseFailed ∧
    (update st now .fetchFailed).1.data = st.data ∧
    (update st2 now2 .fetchFailed).2 = .raisedFetchFailed ∧
    (update st2 now2 .parseFailed).2 = .raisedParseFailed := by
  have hthr : ¬ now - t0 < MIN_TIME_BETWEEN_UPDATES := not_lt.mpr hwin
  refine ⟨?_, ?_, ?_, ?_, ?_⟩ <;> simp [update, hlu, hlu2, hthr]

/-- Witness for the amended C2 at concrete states and times. -/
theorem update_error_propagates_witness :
    (update ⟨some ⟨[], [], [], [], none⟩, some 0⟩ 10 .fetchFailed).2 =
      .raisedFetchFailed ∧
    (update ⟨some ⟨[], [], [], [], none⟩, some 0⟩ 10 .parseFailed).2 =
      .raisedParseFailed ∧
    (update ⟨some ⟨[], [], [], [], none⟩, some 0⟩ 10 .fetchFailed).1.data =
      (⟨some ⟨[], [], [], [], none⟩, some 0⟩ : CacheState).data ∧
    (update ⟨none, none⟩ 0 .fetchFailed).2 = .raisedFetchFailed ∧
    (update ⟨none, none⟩ 0 .parseFailed).2 = .raisedParseFailed :=
  update_error_propagates ⟨some ⟨[], [], [], [], none⟩, some 0⟩ ⟨none, none⟩
    10 0 0 rfl (by norm_num [MIN_TIME_BETWEEN_UPDATES]) rfl

/-- C5: a failing `update()` (connect, download or parse error) leaves the
previously cached document untouched, so every subsequent `get_reading` on
the instance computes over the same document and returns the same value as
before the failed refresh. -/
theorem update_failure_preserves_data (st : CacheState) (now : ℚ)
    (f : FetchResult) (doc : Document)
    (hf : f = .fetchFailed ∨ f = .parseFailed)
    (hd : st.data = some doc)
    (table : List (String × ProductEntry)) (icons : List (String × String))
    (pid cond : String) (idx : ℕ) :
    (update st now f).1.data = some doc ∧
    get_reading table icons pid (((update st now f).1.data).getD doc) cond idx =
      get_reading table icons pid doc cond idx := by
  have hdata : (update st now f).1.data = st.data := by
    rcases hlu : st.lastUpdate with _ | t0
    · rcases hf with rfl | rfl <;> simp [update, hlu]
    · rcases hf with rfl | rfl <;>
        by_cases hthr : now - t0 < MIN_TIME_BETWEEN_UPDATES <;>
        simp [update, hlu, hthr]
  refine ⟨hdata.trans hd, ?_⟩
  rw [hdata, hd, Option.getD_some]

/-- Witness for C5 at a concrete cached document and failing fetch. -/
theorem update_failure_preserves_data_witness :
    (update ⟨some ⟨[], [], [], [], none⟩, some 0⟩ 10 .fetchFailed).1.data =
      some ⟨[], [], [], [], none⟩ ∧
    get_reading [] [] "X"
        (((update ⟨some ⟨[], [], [], [], none⟩, some 0⟩ 10
          .fetchFailed).1.data).getD ⟨[], [], [], [], none⟩) "max" 0 =
      get_reading [] [] "X" ⟨[], [], [], [], none⟩ "max" 0 :=
  update_failure_preserves_data ⟨some ⟨[], [], [], [], none⟩, some 0⟩ 10
    .fetchFailed ⟨[], [], [], [], none⟩ (Or.inl rfl) rfl [] [] "X" "max" 0

/-- C1 counterexample: on a document with no matching element,
`get_reading` crashes for `detailed_summary` (on any product kind) and for
`icon`, instead of returning the `"n/a"` sentinel: `find(...)` returns
`None` and the source dereferences it. -/
theorem get_reading_absent_crash_cex :
    get_reading [("IDN10064", ⟨1, 2, "Sydney", "City"⟩)] [] "IDN10064"
      ⟨[], [], [], [], none⟩ "detailed_summary" 0 = .error .attributeError ∧
    get_reading [("IDN10002", ⟨1, 2, "Hunter", "Area"⟩)] [] "IDN10002"
      ⟨[], [], [], [], none⟩ "detailed_summary" 0 = .error .attributeError ∧
    get_reading [("IDN10002", ⟨1, 2, "Hunter", "Area"⟩)] [] "IDN10002"
      ⟨[], [], [], [], none⟩ "icon" 0 = .error .attributeError ∧
    get_reading [("IDN10002", ⟨1, 2, "Hunter", "Area"⟩)] [] "IDN10002"
      ⟨[], [], [], [], none⟩ "uv_alert" 0 = .error .attributeError := by
  refine ⟨?_, ?_, ?_, ?_⟩ <;> rfl

/-- C1 amended: for a day-index with no matching element (here: beyond the
document's declared forecast periods), `get_reading` returns `"n/a"` for
`max`, `min`, `chance_of_rain` and `summary`, `"0 mm"` for
`possible_rainfall`, and `"n/a"` for `uv_alert` and `fire_danger` on
"City" products; but it raises for `detailed_summary` and `icon` on every
product kind and for `uv_alert` and `fire_danger` on non-"City"
products. -/
theorem get_reading_absent (table : List (String × ProductEntry))
    (icons : List (String × String)) (pid : String) (entry : ProductEntry)
    (doc : Document) (idx : ℕ)
    (hpid : table.lookup pid = some entry)
    (hper : doc.periods.lookup idx = none) :
    get_reading table icons pid doc "max" idx = .ok (some "n/a") ∧
    get_reading table icons pid doc "min" idx = .ok (some "n/a") ∧
    get_reading table icons pid doc "chance_of_rain" idx = .ok (some "n/a") ∧
    get_reading table icons pid doc "summary" idx = .ok (some "n/a") ∧
    get_reading table icons pid doc "possible_rainfall" idx = .ok (some "0 mm") ∧
    (entry.kind = "City" → doc.cityUvAlert.lookup idx = none →
      get_reading table icons pid doc "uv_alert" idx = .ok (some "n/a")) ∧
    (entry.kind = "City" → doc.cityFireDanger.lookup idx = none →
      get_reading table icons pid doc "fire_danger" idx = .ok (some "n/a")) ∧
    (entry.kind ≠ "City" →
      get_reading table icons pid doc "uv_alert" idx = .error .attributeError) ∧
    (entry.kind ≠ "City" →
      get_reading table icons pid doc "fire_danger" idx = .error .attributeError) ∧
    (doc.cityText.lookup idx = none →
      get_reading table icons pid doc "detailed_summary" idx =
        .error .attributeError) ∧
    get_reading table icons pid doc "icon" idx = .error .attributeError := by
  have hff : ∀ tag, findField doc idx tag = none := by
    intro tag
    simp [findField, hper]
  refine ⟨?_, ?_, ?_, ?_, ?_, ?_, ?_, ?_, ?_, ?_, ?_⟩
  · simp [get_reading, genericRead, sensorTag, hff]
  · simp [get_reading, genericRead, sensorTag, hff]
  · simp [get_reading, genericRead, sensorTag, hff]
  · simp [get_reading, genericRead, sensorTag, hff]
  · simp [get_reading, genericRead, sensorTag, hff]
  · intro hk hcu
    simp [get_reading, genericRead, sensorTag, hpid, hk, hcu, hff]
  · intro hk hcf
    simp [get_reading, genericRead, sensorTag, hpid, hk, hcf, hff]
  · intro hk
    simp [get_reading, genericRead, sensorTag, hpid, hk, hff]
  · intro hk
    simp [get_reading, genericRead, sensorTag, hpid, hk, hff]
  · intro hct
    simp [get_reading, hpid, hct, hff]
  · simp [get_reading, genericRead, sensorTag, hff]

/-- Witness for the amended C1 on a concrete "City" product and an empty
document (every lookup absent). -/
theorem get_reading_absent_witness :
    get_reading [("IDN10064", ⟨1, 2, "Sydney", "City"⟩)] [] "IDN10064"
      ⟨[], [], [], [], none⟩ "max" 0 = .ok (some "n/a") ∧
    get_reading [("IDN10064", ⟨1, 2, "Sydney", "City"⟩)] [] "IDN10064"
      ⟨[], [], [], [], none⟩ "min" 0 = .ok (some "n/a") ∧
    get_reading [("IDN10064", ⟨1, 2, "Sydney", "City"⟩)] [] "IDN10064"
      ⟨[], [], [], [], none⟩ "chance_of_rain" 0 = .ok (some "n/a") ∧
    get_reading [("IDN10064", ⟨1, 2, "Sydney", "City"⟩)] [] "IDN10064"
      ⟨[], [], [], [], none⟩ "summary" 0 = .ok (some "n/a") ∧
    get_reading [("IDN10064", ⟨1, 2, "Sydney", "City"⟩)] [] "IDN10064"
      ⟨[], [], [], [], none⟩ "possible_rainfall" 0 = .ok (some "0 mm") ∧
    ((⟨1, 2, "Sydney", "City"⟩ : ProductEntry).kind = "City" →
      (⟨[], [], [], [], none⟩ : Document).cityUvAlert.lookup 0 = none →
      get_reading [("IDN10064", ⟨1, 2, "Sydney", "City"⟩)] [] "IDN10064"
        ⟨[], [], [], [], none⟩ "uv_alert" 0 = .ok (some "n/a")) ∧
    ((⟨1, 2, "Sydney", "City"⟩ : ProductEntry).kind = "City" →
      (⟨[], [], [], [], none⟩ : Document).cityFireDanger.lookup 0 = none →
      get_reading [("IDN10064", ⟨1, 2, "Sydney", "City"⟩)] [] "IDN10064"
        ⟨[], [], [], [], none⟩ "fire_danger" 0 = .ok (some "n/a")) ∧
    ((⟨1, 2, "Sydney", "City"⟩ : ProductEntry).kind ≠ "City" →
      get_reading [("IDN10064", ⟨1, 2, "Sydney", "City"⟩)] [] "IDN10064"
        ⟨[], [], [], [], none⟩ "uv_alert" 0 = .error .attributeError) ∧
    ((⟨1, 2, "Sydney", "City"⟩ : ProductEntry).kind ≠ "City" →
      get_reading [("IDN10064", ⟨1, 2, "Sydney", "City"⟩)] [] "IDN10064"
        ⟨[], [], [], [], none⟩ "fire_danger" 0 = .error .attributeError) ∧
    ((⟨[], [], [], [], none⟩ : Document).cityText.lookup 0 = none →
      get_reading [("IDN10064", ⟨1, 2, "Sydney", "City"⟩)] [] "IDN10064"
        ⟨[], [], [], [], none⟩ "detailed_summary" 0 = .error .attributeError) ∧
    get_reading [("IDN10064", ⟨1, 2, "Sydney", "City"⟩)] [] "IDN10064"
      ⟨[], [], [], [], none⟩ "icon" 0 = .error .attributeError :=
  get_reading_absent [("IDN10064", ⟨1, 2, "Sydney", "City"⟩)] [] "IDN10064"
    ⟨1, 2, "Sydney", "City"⟩ ⟨[], [], [], [], none⟩ 0 rfl rfl

/-- C6: an extracted text value longer than 251 characters is returned as
its first 251 characters followed by `'...'`; a value of 251 or fewer
characters is returned unmodified. Shown on the generic extraction path
(field `summary`, `sensor.py` lines 317-318) and on the non-City
`detailed_summary` path (lines 260-261). -/
theorem get_reading_truncation (table : List (String × ProductEntry))
    (icons : List (String × String)) (pid : String) (entry : ProductEntry)
    (doc : Document) (idx : ℕ) (e : Elem) (s : String)
    (hpid : table.lookup pid = some entry)
    (hk : entry.kind ≠ "City")
    (hp : findField doc idx "precis" = some e)
    (hf : findField doc idx "forecast" = some e)
    (ht : e.text = some s) :
    (s.length > 251 →
      get_reading table icons pid doc "summary" idx =
        .ok (some (s.take 251 ++ "..."))) ∧
    (s.length ≤ 251 →
      get_reading table icons pid doc "summary" idx = .ok (some s)) ∧
    (s.length > 251 →
      get_reading table icons pid doc "detailed_summary" idx =
        .ok (some (s.take 251 ++ "..."))) ∧
    (s.length ≤ 251 →
      get_reading table icons pid doc "detailed_summary" idx =
        .ok (some s)) := by
  refine ⟨?_, ?_, ?_, ?_⟩
  · intro hl
    simp [get_reading, genericRead, sensorTag, hp, ht, hl]
  · intro hl
    have hnl : ¬ s.length > 251 := not_lt.mpr hl
    simp [get_reading, genericRead, sensorTag, hp, ht, hnl]
  · intro hl
    simp [get_reading, hpid, hk, hf, ht, hl]
  · intro hl
    have hnl : ¬ s.length > 251 := not_lt.mpr hl
    simp [get_reading, hpid, hk, hf, ht, hnl]

/-- Witness for C6: a 260-character value is truncated; the hypotheses are
discharged on a concrete document whose `precis` and `forecast` elements
both carry the 260-character text. -/
theorem get_reading_truncation_witness :
    (260 > 251 →
      get_reading [("IDN10002", ⟨1, 2, "Hunter", "Area"⟩)] [] "IDN10002"
        ⟨[(0, ⟨none,
            [("precis", ⟨some (String.mk (List.replicate 260 'a')), []⟩),
              ("forecast", ⟨some (String.mk (List.replicate 260 'a')), []⟩)]⟩)],
          [], [], [], none⟩ "summary" 0 =
        .ok (some ((String.mk (List.replicate 260 'a')).take 251 ++ "..."))) ∧
    (260 ≤ 251 →
      get_reading [("IDN10002", ⟨1, 2, "Hunter", "Area"⟩)] [] "IDN10002"
        ⟨[(0, ⟨none,
            [("precis", ⟨some (String.mk (List.replicate 260 'a')), []⟩),
              ("forecast", ⟨some (String.mk (List.replicate 260 'a')), []⟩)]⟩)],
          [], [], [], none⟩ "summary" 0 =
        .ok (some (String.mk (List.replicate 260 'a')))) ∧
    (260 > 251 →
      get_reading [("IDN10002", ⟨1, 2, "Hunter", "Area"⟩)] [] "IDN10002"
        ⟨[(0, ⟨none,
            [("precis", ⟨some (String.mk (List.replicate 260 'a')), []⟩),
              ("forecast", ⟨some (String.mk (List.replicate 260 'a')), []⟩)]⟩)],
          [], [], [], none⟩ "detailed_summary" 0 =
        .ok (some ((String.mk (List.replicate 260 'a')).take 251 ++ "..."))) ∧
    (260 ≤ 251 →
      get_reading [("IDN10002", ⟨1, 2, "Hunter", "Area"⟩)] [] "IDN10002"
        ⟨[(0, ⟨none,
            [("precis", ⟨some (String.mk (List.replicate 260 'a')), []⟩),
              ("forecast", ⟨some (String.mk (List.replicate 260 'a')), []⟩)]⟩)],
          [], [], [], none⟩ "detailed_summary" 0 =
        .ok (some (String.mk (List.replicate 260 'a')))) := by
  have hlen : (String.mk (List.replicate 260 'a')).length = 260 := by
    show (List.replicate 260 'a').length = 260
    rw [List.length_replicate]
  have h :=
    get_reading_truncation [("IDN10002", ⟨1, 2, "Hunter", "Area"⟩)] []
      "IDN10002" ⟨1, 2, "Hunter", "Area"⟩
      ⟨[(0, ⟨none,
          [("precis", ⟨some (String.mk (List.replicate 260 'a')), []⟩),
            ("forecast", ⟨some (String.mk (List.replicate 260 'a')), []⟩)]⟩)],
        [], [], [], none⟩ 0
      ⟨some (String.mk (List.replicate 260 'a')), []⟩
      (String.mk (List.replicate 260 'a'))
      rfl (by simp) rfl rfl rfl
  rw [hlen] at h
  exact h

/-- C7: `get_reading('possible_rainfall', day)` returns `"0 mm"` when the
source element is absent and the element's literal text when present (up
to the separately-claimed 251-character truncation, hence the length
hypothesis); the other ordinary fields return `"n/a"` when absent. -/
theorem get_reading_rainfall_default (table : List (String × ProductEntry))
    (icons : List (String × String)) (pid : String)
    (docA docP : Document) (idx : ℕ) (e : Elem) (s : String)
    (haRain : findField docA idx "precipitation_range" = none)
    (haMax : findField docA idx "air_temperature_maximum" = none)
    (haMin : findField docA idx "air_temperature_minimum" = none)
    (haCor : findField docA idx "probability_of_precipitation" = none)
    (haSum : findField docA idx "precis" = none)
    (hp : findField docP idx "precipitation_range" = some e)
    (ht : e.text = some s)
    (hlen : s.length ≤ 251) :
    get_reading table icons pid docA "possible_rainfall" idx =
      .ok (some "0 mm") ∧
    get_reading table icons pid docP "possible_rainfall" idx = .ok (some s) ∧
    get_reading table icons pid docA "max" idx = .ok (some "n/a") ∧
    get_reading table icons pid docA "min" idx = .ok (some "n/a") ∧
    get_reading table icons pid docA "chance_of_rain" idx = .ok (some "n/a") ∧
    get_reading table icons pid docA "summary" idx = .ok (some "n/a") := by
  have hnl : ¬ s.length > 251 := not_lt.mpr hlen
  refine ⟨?_, ?_, ?_, ?_, ?_, ?_⟩
  · simp [get_reading, genericRead, sensorTag, haRain]
  · simp [get_reading, genericRead, sensorTag, hp, ht, hnl]
  · simp [get_reading, genericRead, sensorTag, haMax]
  · simp [get_reading, genericRead, sensorTag, haMin]
  · simp [get_reading, genericRead, sensorTag, haCor]
  · simp [get_reading, genericRead, sensorTag, haSum]

/-- Witness for C7: an empty document for the absent case and a document
whose rainfall element reads `"15 mm"` for the present case. -/
theorem get_reading_rainfall_default_witness :
    get_reading [] [] "IDN10002" ⟨[], [], [], [], none⟩
      "possible_rainfall" 0 = .ok (some "0 mm") ∧
    get_reading [] [] "IDN10002"
      ⟨[(0, ⟨none, [("precipitation_range", ⟨some "15 mm", []⟩)]⟩)],
        [], [], [], none⟩ "possible_rainfall" 0 = .ok (some "15 mm") ∧
    get_reading [] [] "IDN10002" ⟨[], [], [], [], none⟩ "max" 0 =
      .ok (some "n/a") ∧
    get_reading [] [] "IDN10002" ⟨[], [], [], [], none⟩ "min" 0 =
      .ok (some "n/a") ∧
    get_reading [] [] "IDN10002" ⟨[], [], [], [], none⟩ "chance_of_rain" 0 =
      .ok (some "n/a") ∧
    get_reading [] [] "IDN10002" ⟨[], [], [], [], none⟩ "summary" 0 =
      .ok (some "n/a") :=
  get_reading_rainfall_default [] [] "IDN10002" ⟨[], [], [], [], none⟩
    ⟨[(0, ⟨none, [("precipitation_range", ⟨some "15 mm", []⟩)]⟩)],
      [], [], [], none⟩ 0 ⟨some "15 mm", []⟩ "15 mm"
    rfl rfl rfl rfl rfl rfl rfl (by decide)

/-- C8: on a "City" product, `get_reading('fire_danger', day)` on a
located element with empty (whitespace-only) direct text returns its `p`
child texts joined with `", "`; the direct text is returned (stripped)
when non-empty; and the `"n/a"` fail-over is reached when both the City
query and the generic fire-danger query locate nothing. -/
theorem get_reading_fire_danger_city (table : List (String × ProductEntry))
    (icons : List (String × String)) (pid : String) (entry : ProductEntry)
    (doc doc2 doc3 : Document) (idx idx2 idx3 : ℕ) (e e3 : Elem)
    (t t3 : String)
    (hpid : table.lookup pid = some entry)
    (hk : entry.kind = "City")
    (hc : doc.cityFireDanger.lookup idx = some e)
    (ht : e.text = some t)
    (htrim : pyStrip t = "")
    (hchildren : e.pChildren = [some "Severe", some "Extreme"])
    (hc2 : doc2.cityFireDanger.lookup idx2 = none)
    (hg2 : findField doc2 idx2 "fire_danger" = none)
    (hc3 : doc3.cityFireDanger.lookup idx3 = some e3)
    (ht3 : e3.text = some t3)
    (htrim3 : pyStrip t3 ≠ "") :
    get_reading table icons pid doc "fire_danger" idx =
      .ok (some "Severe, Extreme") ∧
    get_reading table icons pid doc2 "fire_danger" idx2 = .ok (some "n/a") ∧
    get_reading table icons pid doc3 "fire_danger" idx3 =
      .ok (some (pyStrip t3)) := by
  refine ⟨?_, ?_, ?_⟩
  · simp [get_reading, hpid, hk, hc, ht, htrim, hchildren]
    decide
  · simp [get_reading, genericRead, sensorTag, hpid, hk, hc2, hg2]
  · simp [get_reading, hpid, hk, hc3, ht3, htrim3]

/-- Witness for C8 on concrete documents: empty direct text with `Severe`
and `Extreme` children; full absence; and non-empty direct text. -/
theorem get_reading_fire_danger_city_witness :
    get_reading [("IDN10064", ⟨1, 2, "Sydney", "City"⟩)] [] "IDN10064"
      ⟨[], [], [], [(0, ⟨some " ", [some "Severe", some "Extreme"]⟩)], none⟩
      "fire_danger" 0 = .ok (some "Severe, Extreme") ∧
    get_reading [("IDN10064", ⟨1, 2, "Sydney", "City"⟩)] [] "IDN10064"
      ⟨[], [], [], [], none⟩ "fire_danger" 0 = .ok (some "n/a") ∧
    get_reading [("IDN10064", ⟨1, 2, "Sydney", "City"⟩)] [] "IDN10064"
      ⟨[], [], [], [(0, ⟨some "High", []⟩)], none⟩ "fire_danger" 0 =
      .ok (some (pyStrip "High")) :=
  get_reading_fire_danger_city [("IDN10064", ⟨1, 2, "Sydney", "City"⟩)] []
    "IDN10064" ⟨1, 2, "Sydney", "City"⟩
    ⟨[], [], [], [(0, ⟨some " ", [some "Severe", some "Extreme"]⟩)], none⟩
    ⟨[], [], [], [], none⟩
    ⟨[], [], [], [(0, ⟨some "High", []⟩)], none⟩
    0 0 0 ⟨some " ", [some "Severe", some "Extreme"]⟩ ⟨some "High", []⟩
    " " "High"
    rfl rfl rfl rfl (by decide) rfl rfl rfl rfl rfl (by decide)

/-- C9: `get_start_time_local` returns the period's `start-time-local`
attribute for a declared day-index, and fails (the source dereferences
`None`, an `AttributeError`, the spec's OutOfRange condition) for an index
beyond the declared periods; it never silently yields a null or empty
string there. -/
theorem get_start_time_local_spec (doc doc2 : Document) (idx idx2 : ℕ)
    (p : Period)
    (hin : doc.periods.lookup idx = some p)
    (hout : doc2.periods.lookup idx2 = none) :
    get_start_time_local doc idx = .ok p.startTimeLocal ∧
    get_start_time_local doc2 idx2 = .error .attributeError := by
  constructor
  · simp [get_start_time_local, hin]
  · simp [get_start_time_local, hout]

/-- Witness for C9: a one-period document and an empty document. -/
theorem get_start_time_local_spec_witness :
    get_start_time_local
      ⟨[(0, ⟨some "2020-01-01T00:00:00+10:00", []⟩)], [], [], [], none⟩ 0 =
      .ok (some "2020-01-01T00:00:00+10:00") ∧
    get_start_time_local ⟨[], [], [], [], none⟩ 3 =
      .error .attributeError :=
  get_start_time_local_spec
    ⟨[(0, ⟨some "2020-01-01T00:00:00+10:00", []⟩)], [], [], [], none⟩
    ⟨[], [], [], [], none⟩ 0 3 ⟨some "2020-01-01T00:00:00+10:00", []⟩
    rfl rfl

end NswAirQuality
